import Mathlib

/-!
Verification development for the rediz-lock distributed reader/writer lock
engine.  The definitions below are a shallow embedding of the newest revision
of the source: the atomic lua lock scripts (`src/resources/lua`), the
`RWLock` handle (`src/lib/rwlock.js`), the `LockSet` aggregator, the
acquisition retry loop `_retryUntilTimeOut` and the conflict-resolution path
of `Locker.prototype.writeLock` (`src/lib/locker.js`), and the wrap helpers
of `LockerBase` (`src/lib/locker-base.js`).
-/

set_option autoImplicit false

namespace RedizLock

/-- State of the two redis keys backing one lock name: the write slot
(`<pfx>:write:<key>`, a plain string value with an optional TTL) and the read
set (`<pfx>:read:<key>`, a set of holder tokens with an optional TTL).
A TTL of `none` means the redis key has no expiry. -/
structure LockState where
  writeSlot : Option String
  writeTTL : Option Nat
  readSet : List String
  readTTL : Option Nat
  deriving DecidableEq, Repr

/-- Reply of `writeLock.lua`: `{0, existingToken}` when another writer holds
the slot, `{1}` on full acquisition, `{2, readerTokens}` when the slot was
claimed but readers must still drain. -/
inductive WriteLockReply where
  | conflict (holder : String)
  | acquired
  | claimed (readers : List String)
  deriving DecidableEq, Repr

/-- `src/resources/lua/writeLock.lua`: if the write slot exists return
`{0, existing}` and change nothing; otherwise set the slot to the token
(`SET ... EX ttl` when the ttl argument is nonzero, plain `SET` with no expiry
otherwise) and reply `{2, smembers(readKey)}` if the read set is non-empty,
else `{1}`. -/
def writeLockScript (st : LockState) (token : String) (ttlSecs : Nat) :
    LockState × WriteLockReply :=
  match st.writeSlot with
  | some existing => (st, .conflict existing)
  | none =>
      let st' :=
        if ttlSecs ≠ 0 then
          { st with writeSlot := some token, writeTTL := some ttlSecs }
        else
          { st with writeSlot := some token, writeTTL := none }
      if 0 < st'.readSet.length then (st', .claimed st'.readSet)
      else (st', .acquired)

/-- `readLockRelease` script (`src/unnamed/part_005`): `srem` the token given
as `ARGV[1]` from the read set and return `{1, smembers(readKey)}`.  Calling
it with an empty ARGV list makes `ARGV[1]` nil, which is a redis script error
(`srem` rejects nil arguments), modelled as `none`. -/
def readLockReleaseScript (st : LockState) (argv : List String) :
    Option (LockState × Nat × List String) :=
  match argv with
  | [] => none
  | tok :: _ =>
      let rs := st.readSet.erase tok
      some ({ st with readSet := rs }, 1, rs)

/-- `src/resources/lua/writeLockRelease.lua`: delete the write slot and return
`{1}` if it holds exactly this token, else return `{0}` untouched. -/
def writeLockReleaseScript (st : LockState) (token : String) : LockState × Nat :=
  if st.writeSlot = some token then
    ({ st with writeSlot := none, writeTTL := none }, 1)
  else (st, 0)

/-- The fields of an `RWLock` handle (`src/lib/rwlock.js`) that its release,
relock and upgrade paths read and write.  `referenceCount` is an integer, as
in the source, where the decrement can transiently pass below zero before
being clamped. -/
structure RWLockH where
  key : String
  token : String
  isWriteLock : Bool
  isLocked : Bool
  referenceCount : Int
  deriving DecidableEq, Repr

/-- A redis script invocation issued by the handle code: the script name, the
redis key it is given, and the ARGV list actually passed along. -/
inductive ScriptCall where
  | readLockRelease (redisKey : String) (argv : List String)
  | writeLockRelease (redisKey : String) (argv : List String)
  deriving DecidableEq, Repr

/-- `RWLock.prototype.forceRelease` (`src/lib/rwlock.js` 36-54): a no-op on an
already unlocked handle; otherwise mark unlocked and issue the release script.
The read branch runs `readLockRelease` with only the read key — no ARGV — as
in the source; the write branch passes the handle's token. -/
def forceRelease (pfx : String) (h : RWLockH) : RWLockH × Option ScriptCall :=
  if h.isLocked = false then (h, none)
  else
    let h' := { h with isLocked := false }
    if h.isWriteLock = false then
      (h', some (.readLockRelease (pfx ++ ":read:" ++ h.key) []))
    else
      (h', some (.writeLockRelease (pfx ++ ":write:" ++ h.key) [h.token]))

/-- Result of `RWLock.prototype.release`: the updated handle, whether the
too-many-releases warning fired, whether `forceRelease` was invoked, and the
script call it issued (if any). -/
structure ReleaseOutcome where
  handle : RWLockH
  warned : Bool
  forced : Bool
  call : Option ScriptCall
  deriving DecidableEq, Repr

/-- `RWLock.prototype.release` (`src/lib/rwlock.js` 61-72): decrement the
reference count, clamp it at 0 with a warning if it went negative, and call
`forceRelease` when the (clamped) count is 0. -/
def release (pfx : String) (h : RWLockH) : ReleaseOutcome :=
  let rc0 := h.referenceCount - 1
  let warned : Bool := decide (rc0 < 0)
  let rc := if rc0 < 0 then 0 else rc0
  let h1 := { h with referenceCount := rc }
  if rc = 0 then
    let fr := forceRelease pfx h1
    ⟨fr.1, warned, true, fr.2⟩
  else ⟨h1, warned, false, none⟩

/-- `RWLock.prototype._relock` (`src/lib/rwlock.js` 119-125): error if the
lock was already released, else increment the reference count and return the
same handle. -/
def relock (h : RWLockH) : Option RWLockH :=
  if h.isLocked = false then none
  else some { h with referenceCount := h.referenceCount + 1 }

/-- The decision `RWLock.prototype.upgrade` makes on entry. -/
inductive UpgradeAction where
  | rejectedAlreadyReleased
  | resolvedSelf
  | releaseThenWriteLock (call : Option ScriptCall)
  deriving DecidableEq, Repr

/-- `RWLock.prototype.upgrade` (`src/lib/rwlock.js` 85-108) up to its first
suspension point: reject if released, resolve immediately with `this` if it
is already a write lock, otherwise force-release the read lock and go acquire
a write lock. -/
def upgradeStart (pfx : String) (h : RWLockH) : RWLockH × UpgradeAction :=
  if h.isLocked = false then (h, .rejectedAlreadyReleased)
  else if h.isWriteLock = true then (h, .resolvedSelf)
  else
    let fr := forceRelease pfx h
    (fr.1, .releaseThenWriteLock fr.2)

/-- Lexicographic order on character lists, by code point. -/
def charListLt : List Char → List Char → Bool
  | [], [] => false
  | [], _ :: _ => true
  | _ :: _, [] => false
  | a :: as, b :: bs =>
      if a < b then true
      else if b < a then false
      else charListLt as bs

/-- The JS `<` operator on strings: lexicographic comparison of the code
units.  Lock tokens are ASCII, where this agrees with code-point order. -/
def jsLt (a b : String) : Bool :=
  charListLt a.data b.data

/-- XError codes raised by the embedded code paths. -/
inductive ErrKind where
  | resourceLocked
  | internalError
  deriving DecidableEq, Repr

/-- An error value: its XError code and message. -/
structure LockErr where
  kind : ErrKind
  message : String
  deriving DecidableEq, Repr

/-- The `locks` map of a `LockSet` (`src/unnamed/part_013`): string keys to
handles, in insertion order (JS objects keep string keys in insertion
order). -/
structure LockSetS where
  locks : List (String × RWLockH)
  deriving DecidableEq, Repr

/-- `LockSet.prototype.getLock`: the handle stored under a key, if any. -/
def getLock (s : LockSetS) (key : String) : Option RWLockH :=
  (s.locks.find? (fun p => p.1 == key)).map Prod.snd

/-- Replacing the value stored under a key (JS object keys are unique, so the
first matching entry is the only one). -/
def setLockList (key : String) (h : RWLockH) :
    List (String × RWLockH) → List (String × RWLockH)
  | [] => []
  | p :: ps => if p.1 == key then (p.1, h) :: ps else p :: setLockList key h ps

/-- Replacing the handle stored under a key (the JS code mutates the stored
handle object in place, so the stored entry and the returned handle are the
same object). -/
def setLock (s : LockSetS) (key : String) (h : RWLockH) : LockSetS :=
  ⟨setLockList key h s.locks⟩

/-- `LockSet.prototype.addLock` (`src/unnamed/part_013` 122-125): throw a
`ResourceLockedError` if a lock is already held for the key, else insert the
lock under its key. -/
def addLock (s : LockSetS) (lock : RWLockH) : Except LockErr LockSetS :=
  if (getLock s lock.key).isSome then
    .error ⟨.resourceLocked, "A lock is already held for this key"⟩
  else
    .ok ⟨s.locks ++ [(lock.key, lock)]⟩

/-- What `LockSet.prototype.readLock` did: relock an existing handle (no
remote acquisition), fail because `_relock` threw, or fall through to a fresh
acquisition via the underlying locker. -/
inductive LSReadLock where
  | relocked (h : RWLockH)
  | relockFailed (e : LockErr)
  | acquireFresh
  deriving DecidableEq, Repr

/-- `LockSet.prototype.readLock` (`src/unnamed/part_013` 306-320): if the set
already holds a lock for the key, `_relock` it and return the same handle;
otherwise acquire a fresh read lock via the locker and insert it. -/
def lockSetReadLock (s : LockSetS) (key : String) : LockSetS × LSReadLock :=
  match getLock s key with
  | some h =>
      match relock h with
      | some h' => (setLock s key h', .relocked h')
      | none => (s, .relockFailed ⟨.internalError, "Cannot relock a lock after release"⟩)
  | none => (s, .acquireFresh)

/-- How one iteration's `func()` settled inside `_retryUntilTimeOut`:
resolved truthy, resolved falsy, resolved with the string `'reset'`, rejected
with the swallowed `'Shard unavailable'` error, or rejected with any other
error (which propagates). -/
inductive AttemptResult where
  | success
  | miss
  | reset
  | shardUnavailable
  | failure
  deriving DecidableEq, Repr

/-- Mutable locals of `_retryUntilTimeOut`: `totalWaitTime` (ms accumulated so
far), the current `waitTime` (ms) and the `calledWarn` latch. -/
structure RetryState where
  totalWaitTime : Nat
  waitTime : Nat
  calledWarn : Bool
  deriving DecidableEq, Repr

/-- How `_retryUntilTimeOut` settles. -/
inductive RetryOutcome where
  | success
  | resourceLocked (message : String)
  | resourceLockedTimeout (message : String)
  | propagated
  | pending
  deriving DecidableEq, Repr

/-- One iteration's effect: finish, or sleep `ms` (optionally firing the warn
callback) and continue from the next state. -/
inductive RetryStep where
  | done (o : RetryOutcome)
  | sleep (ms : Nat) (warn : Bool) (next : RetryState)
  deriving DecidableEq, Repr

/-- `timeoutPromise(resetWaitTime)` inside `_retryUntilTimeOut`
(`src/lib/locker.js` 608-634): reject at once if `timeout` is 0; reject with
the timed-out message once `totalWaitTime / 1000 >= timeout`; otherwise add
the current wait to the total, maybe fire the (one-shot) warn callback, sleep
for the current wait, and continue with the next wait
`min(1000, waitTime * 3 + rand)` — or with `resetWaitTime` when given. -/
def timeoutPromise (timeout : Nat) (key : String) (warnTime : Option Nat)
    (st : RetryState) (resetWaitTime : Option Nat) (rand : Nat) : RetryStep :=
  if timeout = 0 then
    .done (.resourceLocked ("A lock cannot be acquired on the resource: " ++ key))
  else if timeout ≤ st.totalWaitTime / 1000 then
    .done (.resourceLockedTimeout ("Timed out trying to get a resource lock for: " ++ key))
  else
    let total := st.totalWaitTime + st.waitTime
    let warnNow : Bool :=
      match warnTime with
      | some w => decide (w ≠ 0 ∧ w * 1000 ≤ total) && !st.calledWarn
      | none => false
    let base := st.waitTime * 3 + rand
    let capped := if 1000 < base then 1000 else base
    let nextWait :=
      match resetWaitTime with
      | some w => w
      | none => capped
    .sleep st.waitTime warnNow ⟨total, nextWait, st.calledWarn || warnNow⟩

/-- One iteration of `Locker.prototype._retryUntilTimeOut` (`src/lib/locker.js`
603-649): a truthy result resolves the loop, an error other than
`'Shard unavailable'` propagates, `'reset'` retries with the wait reset to the
initial 5 ms, and a falsy result or a swallowed shard error retries with the
backed-off wait. -/
def retryStep (timeout : Nat) (key : String) (warnTime : Option Nat)
    (st : RetryState) (res : AttemptResult) (rand : Nat) : RetryStep :=
  match res with
  | .success => .done .success
  | .failure => .done .propagated
  | .reset => timeoutPromise timeout key warnTime st (some 5) rand
  | .miss => timeoutPromise timeout key warnTime st none rand
  | .shardUnavailable => timeoutPromise timeout key warnTime st none rand

/-- The retry loop run over a finite list of attempt results (each paired with
the random draw used for its backoff).  Returns the list of sleeps performed
(in ms, in order) and the outcome. -/
def retryLoop (timeout : Nat) (key : String) (warnTime : Option Nat) :
    RetryState → List (AttemptResult × Nat) → List Nat × RetryOutcome
  | _, [] => ([], .pending)
  | st, (a, r) :: rest =>
      match retryStep timeout key warnTime st a r with
      | .done o => ([], o)
      | .sleep ms _ st' =>
          let rec' := retryLoop timeout key warnTime st' rest
          (ms :: rec'.1, rec'.2)

/-- `_retryUntilTimeOut(func, timeout, key, warnTime, warn)` from its entry
point: `totalWaitTime = 0`, `initialWaitTime = 5`, warn not yet called. -/
def retryUntilTimeOut (timeout : Nat) (key : String) (warnTime : Option Nat)
    (attempts : List (AttemptResult × Nat)) : List Nat × RetryOutcome :=
  retryLoop timeout key warnTime ⟨0, 5, false⟩ attempts

/-- The sleep duration an iteration performed, if it did not finish. -/
def sleptMs : RetryStep → Option Nat
  | .done _ => none
  | .sleep ms _ _ => some ms

/-- The state the loop continues from, if the iteration did not finish. -/
def nextState : RetryStep → Option RetryState
  | .done _ => none
  | .sleep _ _ st => some st

/-- An observed lock holder as stored in `lastLockHolder` of
`Locker.prototype.writeLock`: outcome 0 stores the holding writer's token (a
string), outcome 2 stores the current reader token list (an array). -/
inductive Holder where
  | tok (s : String)
  | readers (l : List String)
  deriving DecidableEq, Repr

/-- JS `.length` of the stored holder value. -/
def holderLength : Holder → Nat
  | .tok s => s.length
  | .readers l => l.length

/-- JS truthiness test `!lastLockHolder` on a stored holder: the empty string
is falsy, arrays are always truthy. -/
def holderFalsy : Holder → Bool
  | .tok s => s.isEmpty
  | .readers _ => false

/-- Locals of `Locker.prototype.writeLock` threaded through its retry
attempts. -/
structure WLState where
  writeLockClaimed : Bool
  lastLockHolder : Option Holder
  numLockHolders : Nat
  lostConflictResolution : Bool
  deriving DecidableEq, Repr

/-- What the attempt body returned to `_retryUntilTimeOut`: `true` (stop),
`'reset'`, or `false` (retry with backoff). -/
inductive LoopSignal where
  | success
  | reset
  | miss
  deriving DecidableEq, Repr

/-- One attempt of `Locker.prototype.writeLock`'s retry body
(`src/lib/locker.js` 419-465).  Outcome 2 records the claim (and resets the
wait the first time); outcome 1 stops the loop; outcome 0 either loses
conflict resolution when `resolveConflicts` is set and the holder's token
compares below ours (JS `result[1] < token`), or clears the claimed flag and
retries, resetting the wait when the observed holder changed. -/
def writeLockAttempt (resolveConflicts : Bool) (token : String) (st : WLState)
    (r : WriteLockReply) : WLState × LoopSignal :=
  match r with
  | .claimed readers =>
      let sig := if st.writeLockClaimed then LoopSignal.miss else LoopSignal.reset
      ({ st with writeLockClaimed := true,
                 lastLockHolder := some (.readers readers) }, sig)
  | .acquired => (st, .success)
  | .conflict holder =>
      if resolveConflicts && jsLt holder token then
        ({ st with lostConflictResolution := true,
                   lastLockHolder := some (.tok holder),
                   numLockHolders := st.numLockHolders + 1 }, .success)
      else
        let st1 := { st with writeLockClaimed := false }
        match st1.lastLockHolder with
        | some h =>
            if holderLength h ≠ 0 ∧ h ≠ Holder.tok holder then
              ({ st1 with lastLockHolder := some (.tok holder),
                          numLockHolders := st1.numLockHolders + 1 }, .reset)
            else if holderFalsy h then
              ({ st1 with lastLockHolder := some (.tok holder) }, .miss)
            else (st1, .miss)
        | none => ({ st1 with lastLockHolder := some (.tok holder) }, .miss)

/-- How `writeLock` settles once `_retryUntilTimeOut` resolved. -/
inductive WLFinal where
  | lockedErr (message : String)
  | handle (token : String)
  deriving DecidableEq, Repr

/-- `Locker.prototype.writeLock` after the retry loop resolves
(`src/lib/locker.js` 507-530): throw the conflict-resolution
`ResourceLockedError` if the loop stopped because we lost, else construct the
acquired `RWLock` carrying our token. -/
def writeLockFinish (key token : String) (st : WLState) : WLFinal :=
  if st.lostConflictResolution then
    .lockedErr ("Lost lock conflict resolution for: " ++ key)
  else .handle token

/-- A JS error value as the release and catch paths observe it: its
`message` and its `code` property (`none` when the property is undefined). -/
structure JsError where
  message : String
  code : Option String
  deriving DecidableEq, Repr

/-- How the redis client settles a script call issued by a release path. -/
inductive ScriptSettle where
  | resolved
  | rejected (e : JsError)
  deriving DecidableEq, Repr

/-- Settlement of the promise `RWLock.prototype.forceRelease` returns, given
how the client settles the script call it issues.  Already unlocked: resolves
at once, no call.  Read branch: the script call's settlement, uncaught — and
the call carries no token, so the script itself errors whenever it is reached
(`readLockReleaseScript st [] = none`).  Write branch (`rwlock.js` 45-52): a
rejection whose message is not `'Shard unavailable'` and whose code is
`'redis_error'` is swallowed (the promise resolves null); any other
rejection, including `'Shard unavailable'`, is rethrown. -/
def forceReleaseSettle (h : RWLockH) (s : ScriptSettle) : Option JsError :=
  if h.isLocked = false then none
  else if h.isWriteLock = false then
    match s with
    | .resolved => none
    | .rejected e => some e
  else
    match s with
    | .resolved => none
    | .rejected e =>
        if e.message ≠ "Shard unavailable" ∧ e.code = some "redis_error" then none
        else some e

/-- Settlement of the promise `RWLock.prototype.release` returns: the
forceRelease settlement when the clamped count reaches 0, an immediate
resolve otherwise. -/
def releaseSettle (h : RWLockH) (s : ScriptSettle) : Option JsError :=
  let rc0 := h.referenceCount - 1
  let rc := if rc0 < 0 then 0 else rc0
  if rc = 0 then forceReleaseSettle h s else none

/-- `LockerBase.prototype.readLockWrap` (`src/lib/locker-base.js` 174-205) as
a function of the acquisition result, the wrapped function's outcome, whether
the wrapped function released the handle it was passed, and how the client
settles the release's script call.  Returns the final handle state (when a
lock was acquired) and the wrapper's settlement.  On fn's success the handle
is released if still locked and the result forwarded once the release
resolves; if the release rejects, the rejection falls to the trailing
`.catch(handleError)`, which releases again — a no-op resolving immediately,
the handle being unlocked by then — and rethrows the release error.  On fn's
error, `handleError` releases and rethrows: its rethrow (of fn's error when
the release resolved, of the release error when it rejected) is itself caught
by the trailing catch, which runs `handleError` once more — a second
`release()` call, resolving as a no-op — before the wrapper finally rejects
with that error. -/
def readLockWrap {α : Type} (pfx : String) (acq : Except JsError RWLockH)
    (fnRes : Except JsError α) (fnReleases : Bool) (relSettle : ScriptSettle) :
    Option RWLockH × Except JsError α :=
  match acq with
  | .error e => (none, .error e)
  | .ok lock =>
      let lockAfterFn := if fnReleases then (release pfx lock).handle else lock
      match fnRes with
      | .ok v =>
          if lockAfterFn.isLocked then
            match releaseSettle lockAfterFn relSettle with
            | none => (some (release pfx lockAfterFn).handle, .ok v)
            | some e =>
                (some (release pfx (release pfx lockAfterFn).handle).handle,
                  .error e)
          else (some lockAfterFn, .ok v)
      | .error e =>
          match releaseSettle lockAfterFn relSettle with
          | none =>
              (some (release pfx (release pfx lockAfterFn).handle).handle,
                .error e)
          | some er =>
              (some (release pfx (release pfx lockAfterFn).handle).handle,
                .error er)

/-- `LockerBase.prototype.writeLockWrap` (`src/lib/locker-base.js` 216-243):
acquire, run `fn`, release; the result is forwarded only once
`rwlock.release()` resolves; a release rejection reaches the trailing
`.catch(handleError)` — which releases again (no-op) and rethrows the release
error — so the wrapper then rejects with the release error instead.  On fn's
error, as in `readLockWrap`, `handleError`'s rethrow is caught by the
trailing catch and a second no-op `release()` runs before the wrapper
rejects. -/
def writeLockWrap {α : Type} (pfx : String) (acq : Except JsError RWLockH)
    (fnRes : Except JsError α) (relSettle : ScriptSettle) :
    Option RWLockH × Except JsError α :=
  match acq with
  | .error e => (none, .error e)
  | .ok lock =>
      match fnRes with
      | .ok v =>
          match releaseSettle lock relSettle with
          | none => (some (release pfx lock).handle, .ok v)
          | some e =>
              (some (release pfx (release pfx lock).handle).handle, .error e)
      | .error e =>
          match releaseSettle lock relSettle with
          | none =>
              (some (release pfx (release pfx lock).handle).handle, .error e)
          | some er =>
              (some (release pfx (release pfx lock).handle).handle, .error er)

/-- `getLock` on an empty map. -/
theorem getLock_nil (key : String) : getLock ⟨[]⟩ key = none := by
  simp [getLock]

/-- `getLock` when the head entry matches. -/
theorem getLock_cons_hit (a : String × RWLockH) (as : List (String × RWLockH))
    (key : String) (h : (a.1 == key) = true) :
    getLock ⟨a :: as⟩ key = some a.2 := by
  simp [getLock, List.find?_cons, h]

/-- `getLock` when the head entry does not match. -/
theorem getLock_cons_skip (a : String × RWLockH) (as : List (String × RWLockH))
    (key : String) (h : (a.1 == key) = false) :
    getLock ⟨a :: as⟩ key = getLock ⟨as⟩ key := by
  simp [getLock, List.find?_cons, h]

/-- A key that is absent from the left part of a map is looked up in the
right part. -/
theorem getLock_append_of_none (l1 l2 : List (String × RWLockH)) (key : String)
    (h : getLock ⟨l1⟩ key = none) :
    getLock ⟨l1 ++ l2⟩ key = getLock ⟨l2⟩ key := by
  induction l1 with
  | nil => simp
  | cons a as ih =>
      cases hak : (a.1 == key) with
      | true => rw [getLock_cons_hit a as key hak] at h; cases h
      | false =>
          rw [getLock_cons_skip a as key hak] at h
          rw [List.cons_append, getLock_cons_skip a (as ++ l2) key hak]
          exact ih h

/-- A key found in the left part of a map is unaffected by appending. -/
theorem getLock_append_of_some (l1 l2 : List (String × RWLockH)) (key : String)
    (h : RWLockH) (hf : getLock ⟨l1⟩ key = some h) :
    getLock ⟨l1 ++ l2⟩ key = some h := by
  induction l1 with
  | nil => rw [getLock_nil] at hf; cases hf
  | cons a as ih =>
      cases hak : (a.1 == key) with
      | true =>
          rw [getLock_cons_hit a as key hak] at hf
          rw [List.cons_append, getLock_cons_hit a (as ++ l2) key hak]
          exact hf
      | false =>
          rw [getLock_cons_skip a as key hak] at hf
          rw [List.cons_append, getLock_cons_skip a (as ++ l2) key hak]
          exact ih hf

/-- Replacing the stored handle for a key that is present leaves the map with
the new handle stored under that key. -/
theorem getLock_setLock_of_found (s : LockSetS) (key : String) (h h' : RWLockH)
    (hf : getLock s key = some h) : getLock (setLock s key h') key = some h' := by
  rcases s with ⟨l⟩
  induction l with
  | nil => rw [getLock_nil] at hf; cases hf
  | cons a as ih =>
      cases hak : (a.1 == key) with
      | true =>
          show getLock ⟨setLockList key h' (a :: as)⟩ key = some h'
          rw [setLockList, if_pos hak]
          exact getLock_cons_hit (a.1, h') as key hak
      | false =>
          show getLock ⟨setLockList key h' (a :: as)⟩ key = some h'
          rw [setLockList, if_neg (by simp [hak])]
          rw [getLock_cons_skip a as key hak] at hf
          rw [getLock_cons_skip a (setLockList key h' as) key hak]
          exact ih hf

end RedizLock

namespace RedizLock

/-- C2: for every evaluation of the writeLock script on (writeKey, readKey)
with arguments (token, ttlSecs): if the write slot already holds a value it
returns `{0, existingToken}` and changes nothing; otherwise it sets the write
slot to the token — with TTL `ttlSecs` when positive, with no expiry when 0 —
and then returns `{2, current reader tokens}` if the read set is non-empty,
else `{1}`. -/
theorem writeLockScript_spec (st : LockState) (token : String) (ttl : Nat) :
    (∀ h, st.writeSlot = some h → writeLockScript st token ttl = (st, .conflict h)) ∧
    (st.writeSlot = none →
      writeLockScript st token ttl =
        ({ st with writeSlot := some token,
                   writeTTL := if ttl = 0 then none else some ttl },
         if st.readSet = [] then WriteLockReply.acquired
         else WriteLockReply.claimed st.readSet)) := by
  constructor
  · intro h hs
    simp [writeLockScript, hs]
  · intro hs
    by_cases ht : ttl = 0 <;> by_cases hr : st.readSet = [] <;>
      simp [writeLockScript, hs, ht, hr, List.length_pos]

/-- Witness for `writeLockScript_spec` at concrete inputs: an occupied slot is
left untouched with reply `{0, holder}`; an empty slot with ttl 0 is set with
no expiry and replies `{2, readers}`. -/
theorem writeLockScript_spec_witness :
    writeLockScript ⟨some "X", none, [], none⟩ "50b1" 60 =
      (⟨some "X", none, [], none⟩, .conflict "X") ∧
    writeLockScript ⟨none, none, ["r1"], some 60⟩ "50b2" 0 =
      (⟨some "50b2", none, ["r1"], some 60⟩, .claimed ["r1"]) := by
  constructor
  · exact (writeLockScript_spec ⟨some "X", none, [], none⟩ "50b1" 60).1 "X" rfl
  · simpa using (writeLockScript_spec ⟨none, none, ["r1"], some 60⟩ "50b2" 0).2 rfl

/-- C6: `release()` decrements the reference count by exactly 1, clamping at 0
(with the warning exactly when the count was already 0), and invokes
`forceRelease` exactly when the (clamped) count reaches 0; `forceRelease` is
idempotent, and both on an already-unlocked handle perform no KV operation
and resolve. -/
theorem release_refcount_spec (pfx : String) (h : RWLockH)
    (hrc : 0 ≤ h.referenceCount) :
    (release pfx h).handle.referenceCount = max 0 (h.referenceCount - 1) ∧
    ((release pfx h).warned = true ↔ h.referenceCount = 0) ∧
    ((release pfx h).forced = true ↔ (release pfx h).handle.referenceCount = 0) ∧
    forceRelease pfx (forceRelease pfx h).1 = ((forceRelease pfx h).1, none) ∧
    (h.isLocked = false →
      forceRelease pfx h = (h, none) ∧ (release pfx h).call = none) := by
  obtain ⟨k, t, w, lk, rc⟩ := h
  refine ⟨?_, ?_, ?_, ?_, ?_⟩ <;>
    simp only [release, forceRelease] at * <;>
    cases lk <;> cases w <;> split_ifs <;>
    simp_all <;> omega

/-- Witness for `release_refcount_spec`: releasing a write handle with
reference count 1 drops the count to 0. -/
theorem release_refcount_spec_witness :
    (release "rzlock:" ⟨"k", "t", true, true, 1⟩).handle.referenceCount =
      max 0 (1 - 1) :=
  (release_refcount_spec "rzlock:" ⟨"k", "t", true, true, 1⟩ (by decide)).1

/-- C7: `LockSet.readLock` on a key already held performs no fresh remote
acquisition: it returns the very same handle (mutated to carry a reference
count one higher), that handle is what remains stored for the key, and one
additional `release()` is then needed before the handle's count returns to
where it was (so it is not force-released by that release when the count was
at least 1). -/
theorem lockSetReadLock_relock_spec (pfx : String) (s : LockSetS) (key : String)
    (h : RWLockH) (hf : getLock s key = some h) (hl : h.isLocked = true) :
    (lockSetReadLock s key).2 =
      .relocked { h with referenceCount := h.referenceCount + 1 } ∧
    getLock (lockSetReadLock s key).1 key =
      some { h with referenceCount := h.referenceCount + 1 } ∧
    (1 ≤ h.referenceCount →
      (release pfx { h with referenceCount := h.referenceCount + 1 }).forced = false ∧
      (release pfx { h with referenceCount := h.referenceCount + 1
        }).handle.referenceCount = h.referenceCount) := by
  have hrel : relock h = some { h with referenceCount := h.referenceCount + 1 } := by
    simp [relock, hl]
  refine ⟨by simp [lockSetReadLock, hf, hrel], ?_, ?_⟩
  · have hset : (lockSetReadLock s key).1 =
        setLock s key { h with referenceCount := h.referenceCount + 1 } := by
      simp [lockSetReadLock, hf, hrel]
    rw [hset]
    exact getLock_setLock_of_found s key h _ hf
  · intro h1
    have hlt : ¬ (h.referenceCount + 1 - 1 < 0) := by omega
    have hz : ¬ (h.referenceCount + 1 - 1 = 0) := by omega
    have hc : ¬ (0 ≤ h.referenceCount → h.referenceCount = 0) := by omega
    have hc2 : ¬ (h.referenceCount < 0) := by omega
    have hz2 : ¬ (h.referenceCount = 0) := by omega
    constructor
    · simp [release, hlt, hz, hc, hc2, hz2]
    · simp [release, hlt, hz, hc, hc2, hz2]

/-- Witness for `lockSetReadLock_relock_spec`: a set holding a read handle for
`"k"` with count 1 hands the same handle back with count 2. -/
theorem lockSetReadLock_relock_spec_witness :
    (lockSetReadLock ⟨[("k", ⟨"k", "t", false, true, 1⟩)]⟩ "k").2 =
      .relocked ⟨"k", "t", false, true, 2⟩ :=
  (lockSetReadLock_relock_spec "rzlock:" ⟨[("k", ⟨"k", "t", false, true, 1⟩)]⟩ "k"
    ⟨"k", "t", false, true, 1⟩ (by decide) rfl).1

/-- C8: `LockSet.addLock` fails with a RESOURCE_LOCKED error when the set
already holds a lock for the key; otherwise it inserts the lock under its key
and leaves every other entry unchanged. -/
theorem addLock_spec (s : LockSetS) (l : RWLockH) :
    ((getLock s l.key).isSome = true →
      addLock s l = .error ⟨.resourceLocked, "A lock is already held for this key"⟩) ∧
    (getLock s l.key = none →
      addLock s l = .ok ⟨s.locks ++ [(l.key, l)]⟩ ∧
      getLock ⟨s.locks ++ [(l.key, l)]⟩ l.key = some l ∧
      ∀ k, k ≠ l.key → getLock ⟨s.locks ++ [(l.key, l)]⟩ k = getLock s k) := by
  constructor
  · intro hs
    simp [addLock, hs]
  · intro hn
    refine ⟨by simp [addLock, hn], ?_, ?_⟩
    · rw [getLock_append_of_none _ _ _ hn]
      exact getLock_cons_hit (l.key, l) [] l.key (by simp)
    · intro k hk
      cases hf : getLock s k with
      | some x => exact getLock_append_of_some _ _ _ _ hf
      | none =>
          rw [getLock_append_of_none _ _ _ hf]
          rw [getLock_cons_skip (l.key, l) [] k (by simp [Ne.symm hk]), getLock_nil]

/-- Witness for `addLock_spec`: adding to a set already holding the key fails
with RESOURCE_LOCKED; adding to an empty set inserts the lock. -/
theorem addLock_spec_witness :
    addLock ⟨[("k", ⟨"k", "t", false, true, 1⟩)]⟩ ⟨"k", "u", true, true, 1⟩ =
      .error ⟨.resourceLocked, "A lock is already held for this key"⟩ ∧
    addLock ⟨[]⟩ ⟨"k", "u", true, true, 1⟩ =
      .ok ⟨[("k", ⟨"k", "u", true, true, 1⟩)]⟩ := by
  constructor
  · exact (addLock_spec ⟨[("k", ⟨"k", "t", false, true, 1⟩)]⟩
      ⟨"k", "u", true, true, 1⟩).1 (by decide)
  · exact ((addLock_spec ⟨[]⟩ ⟨"k", "u", true, true, 1⟩).2 (by decide)).1

/-- C10: `upgrade` on a handle that is locked and already a write lock
resolves immediately with the handle itself: no script or KV operation is
issued and every field (token, reference count, `isWriteLock`, `isLocked`) is
unchanged. -/
theorem upgrade_write_noop (pfx : String) (h : RWLockH)
    (hl : h.isLocked = true) (hw : h.isWriteLock = true) :
    upgradeStart pfx h = (h, .resolvedSelf) := by
  simp [upgradeStart, hl, hw]

/-- Witness for `upgrade_write_noop` at a concrete write handle. -/
theorem upgrade_write_noop_witness :
    upgradeStart "rzlock:" ⟨"k", "t", true, true, 1⟩ =
      (⟨"k", "t", true, true, 1⟩, .resolvedSelf) :=
  upgrade_write_noop "rzlock:" ⟨"k", "t", true, true, 1⟩ rfl rfl

/-- C1 counterexample: `resolveConflicts` is on and the acquirer's own token
`"50a1"` is strictly less than the holder's `"50b1"`, so the claim as stated
has this acquirer stop waiting and reject; the code instead clears the
claimed flag and keeps retrying, and the final stage raises no
conflict-resolution error (it would return the handle if the loop ever
succeeded). -/
theorem writeLock_conflict_counterexample :
    jsLt "50a1" "50b1" = true ∧
    writeLockAttempt true "50a1" ⟨true, none, 0, false⟩ (.conflict "50b1") =
      (⟨false, some (.tok "50b1"), 0, false⟩, .miss) ∧
    writeLockFinish "foo" "50a1"
        (writeLockAttempt true "50a1" ⟨true, none, 0, false⟩ (.conflict "50b1")).1 =
      .handle "50a1" := by decide

/-- C1 (amended): with `resolveConflicts` true and outcome 0, if the holder's
token is strictly less than the acquirer's own token the acquisition stops
waiting (`lostConflictResolution` stops the loop) and rejects with a
RESOURCE_LOCKED error whose message mentions conflict resolution, while a
side whose own token is the lower one continues to wait normally; in that
case — and whenever the holder's token is not below ours — the acquirer
clears its claimed state and retries. -/
theorem writeLock_conflict_direction_spec (key token holder : String) (st : WLState) :
    (jsLt holder token = true →
      (writeLockAttempt true token st (.conflict holder)).2 = .success ∧
      (writeLockAttempt true token st (.conflict holder)).1.lostConflictResolution
        = true ∧
      writeLockFinish key token (writeLockAttempt true token st (.conflict holder)).1 =
        .lockedErr ("Lost lock " ++ "conflict resolution" ++ (" for: " ++ key))) ∧
    (jsLt holder token = false →
      (writeLockAttempt true token st (.conflict holder)).1.writeLockClaimed = false ∧
      (writeLockAttempt true token st (.conflict holder)).1.lostConflictResolution
        = st.lostConflictResolution ∧
      (writeLockAttempt true token st (.conflict holder)).2 ≠ .success) := by
  constructor
  · intro hlt
    refine ⟨?_, ?_, ?_⟩ <;>
      simp [writeLockAttempt, hlt, writeLockFinish, ← String.append_assoc]
  · intro hlt
    obtain ⟨wc, llh, n, lost⟩ := st
    cases llh with
    | none => simp [writeLockAttempt, hlt]
    | some hh =>
        refine ⟨?_, ?_, ?_⟩ <;>
          simp only [writeLockAttempt, hlt, Bool.and_false] <;>
          split_ifs <;> simp_all

/-- Witness for `writeLock_conflict_direction_spec`: the holder's token
`"50a1"` is below ours (`"50b9"`), so the attempt stops the loop and the
finish stage rejects with the conflict-resolution message. -/
theorem writeLock_conflict_direction_spec_witness :
    (writeLockAttempt true "50b9" ⟨false, none, 0, false⟩ (.conflict "50a1")).2 =
      .success :=
  ((writeLock_conflict_direction_spec "foo" "50b9" "50a1"
    ⟨false, none, 0, false⟩).1 (by decide)).1

/-- C3 (code bug): force-releasing a read handle invokes `readLockRelease`
with only the read key and an empty ARGV — the handle's token is never passed
— so the script, whose `srem KEYS[1] ARGV[1]` requires the token argument,
errors and removes nothing; given the token, the same script would remove
exactly it and return `{1, remaining}`.  The write release, for contrast,
passes the token, and its script leaves another holder's slot untouched. -/
theorem readRelease_missing_token_bug :
    (forceRelease "rzlock:" ⟨"k", "50abcdefghijklmnopq1", false, true, 1⟩).2 =
      some (.readLockRelease "rzlock::read:k" []) ∧
    readLockReleaseScript ⟨none, none, ["50abcdefghijklmnopq1"], some 60⟩ [] = none ∧
    readLockReleaseScript ⟨none, none, ["50abcdefghijklmnopq1"], some 60⟩
        ["50abcdefghijklmnopq1"] =
      some (⟨none, none, [], some 60⟩, 1, []) ∧
    (forceRelease "rzlock:" ⟨"k", "50abcdefghijklmnopq1", true, true, 1⟩).2 =
      some (.writeLockRelease "rzlock::write:k" ["50abcdefghijklmnopq1"]) ∧
    writeLockReleaseScript ⟨some "OTHER", some 60, [], none⟩ "50abcdefghijklmnopq1" =
      (⟨some "OTHER", some 60, [], none⟩, 0) := by decide

/-- C4: with `maxWaitTime` 0 a first non-success attempt rejects
RESOURCE_LOCKED with no sleep performed; with a nonzero `maxWaitTime`, as
soon as the accumulated wait in seconds reaches it, the loop rejects with
exactly the message `Timed out trying to get a resource lock for: <key>`. -/
theorem retryTimeout_spec (key : String) (warnTime : Option Nat)
    (st : RetryState) (timeout : Nat) (a : AttemptResult) (r : Nat)
    (attempts : List (AttemptResult × Nat)) :
    (a ≠ .success → a ≠ .failure →
      retryUntilTimeOut 0 key warnTime ((a, r) :: attempts) =
        ([], .resourceLocked ("A lock cannot be acquired on the resource: " ++ key))) ∧
    (timeout ≠ 0 → a ≠ .success → a ≠ .failure →
      timeout ≤ st.totalWaitTime / 1000 →
      retryStep timeout key warnTime st a r =
        .done (.resourceLockedTimeout
          ("Timed out trying to get a resource lock for: " ++ key))) := by
  constructor
  · intro h1 h2
    cases a <;> simp_all [retryUntilTimeOut, retryLoop, retryStep, timeoutPromise]
  · intro ht h1 h2 hle
    cases a <;> simp_all [retryStep, timeoutPromise]

/-- Witness for `retryTimeout_spec`: a zero `maxWaitTime` miss rejects with no
sleep; a state 1000 ms into a 1 s budget rejects with the timed-out
message. -/
theorem retryTimeout_spec_witness :
    retryUntilTimeOut 0 "foo" none [(.miss, 0)] =
      ([], .resourceLocked ("A lock cannot be acquired on the resource: " ++ "foo")) ∧
    retryStep 1 "foo" none ⟨1000, 15, false⟩ .miss 0 =
      .done (.resourceLockedTimeout
        ("Timed out trying to get a resource lock for: " ++ "foo")) := by
  constructor
  · exact (retryTimeout_spec "foo" none ⟨0, 5, false⟩ 0 .miss 0 []).1
      (by decide) (by decide)
  · exact (retryTimeout_spec "foo" none ⟨1000, 15, false⟩ 1 .miss 0 []).2
      (by decide) (by decide) (by decide) (by decide)

/-- The JS cap `if (newWaitTime > 1000) newWaitTime = 1000` computes a
minimum. -/
theorem cap_eq_min (b : Nat) : (if 1000 < b then 1000 else b) = min 1000 b := by
  split_ifs <;> omega

/-- C5: the loop starts from a wait of 5 ms (the first sleep after a first
miss is 5 ms); after each miss the next wait is min(1000, 3·previous + rand);
on a holder-change reset the next wait goes back to 5 ms while the
accumulated total keeps counting (the new total is the old total plus the
wait just slept — it is not reset). -/
theorem retryBackoff_spec (key : String) (warnTime : Option Nat)
    (timeout : Nat) (st : RetryState) (r : Nat) :
    (timeout ≠ 0 →
      sleptMs (retryStep timeout key warnTime ⟨0, 5, false⟩ .miss r) = some 5) ∧
    (timeout ≠ 0 → st.totalWaitTime / 1000 < timeout →
      sleptMs (retryStep timeout key warnTime st .miss r) = some st.waitTime ∧
      (nextState (retryStep timeout key warnTime st .miss r)).map
          RetryState.waitTime = some (min 1000 (st.waitTime * 3 + r)) ∧
      (nextState (retryStep timeout key warnTime st .miss r)).map
          RetryState.totalWaitTime = some (st.totalWaitTime + st.waitTime)) ∧
    (timeout ≠ 0 → st.totalWaitTime / 1000 < timeout →
      (nextState (retryStep timeout key warnTime st .reset r)).map
          RetryState.waitTime = some 5 ∧
      (nextState (retryStep timeout key warnTime st .reset r)).map
          RetryState.totalWaitTime = some (st.totalWaitTime + st.waitTime)) := by
  refine ⟨?_, ?_, ?_⟩
  · intro ht
    have hn : ¬ (timeout ≤ (0 : Nat) / 1000) := by omega
    simp [retryStep, timeoutPromise, sleptMs, nextState, ht, hn]
  · intro ht hlt
    have hn : ¬ (timeout ≤ st.totalWaitTime / 1000) := Nat.not_le.mpr hlt
    refine ⟨?_, ?_, ?_⟩ <;>
      simp [retryStep, timeoutPromise, sleptMs, nextState, ht, hn, cap_eq_min]
  · intro ht hlt
    have hn : ¬ (timeout ≤ st.totalWaitTime / 1000) := Nat.not_le.mpr hlt
    refine ⟨?_, ?_⟩ <;>
      simp [retryStep, timeoutPromise, sleptMs, nextState, ht, hn]

/-- Witness for `retryBackoff_spec`: a miss from the initial state with rand 2
sleeps 5 ms and schedules min(1000, 5·3+2) = 17 ms. -/
theorem retryBackoff_spec_witness :
    (nextState (retryStep 1 "k" none ⟨0, 5, false⟩ .miss 2)).map
        RetryState.waitTime = some (min 1000 (5 * 3 + 2)) :=
  ((retryBackoff_spec "k" none 1 ⟨0, 5, false⟩ 2).2.1 (by decide) (by decide)).2.1

/-- C9 counterexample: a fresh read handle, a wrapped function that returns
0, and the client reporting the script error that the handle's token-less
`readLockRelease` call produces (the issued call and the script's rejection
of an empty ARGV are exhibited alongside): the wrapper rejects with the
release error instead of resolving with 0, so the claim's success clause is
false of the program. -/
theorem lockWrap_readRelease_counterexample :
    (forceRelease "rzlock:" ⟨"k", "50abcdefghijklmnopq2", false, true, 1⟩).2 =
      some (.readLockRelease "rzlock::read:k" []) ∧
    readLockReleaseScript ⟨none, none, ["50abcdefghijklmnopq2"], some 60⟩ [] = none ∧
    (readLockWrap "rzlock:" (.ok ⟨"k", "50abcdefghijklmnopq2", false, true, 1⟩)
        (.ok (0 : Nat)) false (.rejected ⟨"ERR Error running script", none⟩)).2 =
      .error ⟨"ERR Error running script", none⟩ ∧
    (readLockWrap "rzlock:" (.ok ⟨"k", "50abcdefghijklmnopq2", false, true, 1⟩)
        (.ok (0 : Nat)) false (.rejected ⟨"ERR Error running script", none⟩)).2 ≠
      .ok 0 := by
  have h3 : (readLockWrap "rzlock:"
      (.ok ⟨"k", "50abcdefghijklmnopq2", false, true, 1⟩)
      (.ok (0 : Nat)) false (.rejected ⟨"ERR Error running script", none⟩)).2 =
      .error ⟨"ERR Error running script", none⟩ := rfl
  refine ⟨by decide, by decide, h3, ?_⟩
  rw [h3]
  exact fun hc => Except.noConfusion hc

/-- C9 (amended): both wrap helpers run fn under the lock and invoke — and
await — the release before anything leaves the wrapper, the final handle
being unlocked on every path.  When the release resolves, the wrapper
forwards fn's result or error unchanged (also when fn had already released
the handle it was passed, in which case no live release remains).  When the
release rejects, the wrapper rejects with the release error on the success
and the error path alike; for a locked read handle the rejection is
systematic, because the call it issues is the token-less `readLockRelease`,
which the script rejects. -/
theorem lockWrap_settle_spec {α : Type} (pfx : String) (lock : RWLockH)
    (fnRes : Except JsError α) (s : ScriptSettle) (e : JsError)
    (hl : lock.isLocked = true) (hrc : lock.referenceCount = 1) :
    (releaseSettle lock s = none →
      (readLockWrap pfx (.ok lock) fnRes false s).2 = fnRes ∧
      (writeLockWrap pfx (.ok lock) fnRes s).2 = fnRes) ∧
    (releaseSettle lock s = some e →
      (readLockWrap pfx (.ok lock) fnRes false s).2 = .error e ∧
      (writeLockWrap pfx (.ok lock) fnRes s).2 = .error e) ∧
    (readLockWrap pfx (.ok lock) fnRes true s).2 = fnRes ∧
    (∀ fr h', (readLockWrap pfx (.ok lock) fnRes fr s).1 = some h' →
      h'.isLocked = false) ∧
    (∀ h', (writeLockWrap pfx (.ok lock) fnRes s).1 = some h' →
      h'.isLocked = false) ∧
    (lock.isWriteLock = false →
      (forceRelease pfx lock).2 =
        some (.readLockRelease (pfx ++ ":read:" ++ lock.key) []) ∧
      forceReleaseSettle lock (.rejected e) = some e) ∧
    (∀ st : LockState, readLockReleaseScript st [] = none) := by
  have k1 : (release pfx lock).handle.isLocked = false := by
    obtain ⟨k, t, w, lk, rc⟩ := lock
    simp only at hl hrc
    subst hl hrc
    cases w <;> simp [release, forceRelease]
  have k2 : (release pfx (release pfx lock).handle).handle.isLocked = false := by
    obtain ⟨k, t, w, lk, rc⟩ := lock
    simp only at hl hrc
    subst hl hrc
    cases w <;> simp [release, forceRelease]
  have k3 : releaseSettle (release pfx lock).handle s = none := by
    obtain ⟨k, t, w, lk, rc⟩ := lock
    simp only at hl hrc
    subst hl hrc
    cases w <;> simp [release, forceRelease, releaseSettle, forceReleaseSettle]
  have k4 : (release pfx
      (release pfx (release pfx lock).handle).handle).handle.isLocked = false := by
    obtain ⟨k, t, w, lk, rc⟩ := lock
    simp only at hl hrc
    subst hl hrc
    cases w <;> simp [release, forceRelease]
  refine ⟨?_, ?_, ?_, ?_, ?_, ?_, ?_⟩
  · intro h0
    cases fnRes <;> simp [readLockWrap, writeLockWrap, hl, h0]
  · intro h0
    cases fnRes <;> simp [readLockWrap, writeLockWrap, hl, h0]
  · cases fnRes <;> simp [readLockWrap, k1, k3]
  · intro fr h' hh
    cases fnRes <;> cases fr <;>
      cases hrs : releaseSettle lock s <;>
      simp_all [readLockWrap, k1, k2, k3, k4, hl]
  · intro h' hh
    cases fnRes <;>
      cases hrs : releaseSettle lock s <;>
      simp_all [writeLockWrap, k1, k2]
  · intro hw
    constructor
    · simp [forceRelease, hl, hw]
    · simp [forceReleaseSettle, hl, hw]
  · intro st
    simp [readLockReleaseScript]

/-- Witness for `lockWrap_settle_spec`: a fresh write handle whose release
script call resolves forwards the wrapped function's value 0. -/
theorem lockWrap_settle_spec_witness :
    (writeLockWrap "rzlock:" (.ok ⟨"k", "t", true, true, 1⟩)
      (.ok (0 : Nat)) .resolved).2 = .ok 0 :=
  ((lockWrap_settle_spec "rzlock:" ⟨"k", "t", true, true, 1⟩ (.ok 0) .resolved
    ⟨"", none⟩ rfl rfl).1 (by decide)).2

end RedizLock
